import Mathlib

/-!
Shallow embedding of the resumable conversation state machine of
`crewai_flow.py` (class `OutputExampleFlow`).

The Python flow keeps its session state in a dynamic dictionary
(`self.state`).  Every key the flow ever reads or writes becomes one
optional field of `FlowState` below, `none` standing for "key absent".
The framework-driven step wiring (`@start`, `@listen`, `@router`) is
rendered as the explicit composition `kickoff`: one `kickoff` run executes
`initialize`, then `handle_user_input`, then the router `routing`, then the
chain of listeners selected by the routed event, exactly as the decorators
wire them in the source.  `random.choice(raw_results)` is modelled by an
extra parameter `r : Nat`; the chosen index is `r % raw_results.length`,
which ranges over every index of the list as `r` does.

Field accesses that Python performs unconditionally
(`self.state["user_inputs"]` and so on) are rendered with `Option.getD` at
the field's first-run default; in every run these accesses happen after the
initializing start step has made the field present, so the default is never
consulted on the paths the theorems below describe.
-/

/-- A transcript entry, mirroring the `{"role": ..., "content": ...}`
dictionaries the flow appends to `self.state["history"]`. -/
structure Msg where
  role : String
  content : String
deriving DecidableEq

/-- The session state bag of `OutputExampleFlow`.  `id` is the session id the
persistence layer keys on; Python guarantees it is always present, so it is a
plain field.  All other keys are optional. -/
structure FlowState where
  id : String
  counter : Option Int
  user_inputs : Option (List String)
  retry_count : Option Int
  attempt_count : Option Int
  output_messages : Option (List String)
  history : Option (List Msg)
  last_user_input : Option String
  user_input_type : Option String
  user_choice : Option Bool
  completed : Option Bool
  raw_results : Option (List String)
  final_result : Option String
deriving DecidableEq

/-- The `@start()` step `initialize` (source lines 25-38): each field gets its
first-run default only when the key is absent (`if "k" not in self.state`).
Named with a `_step` suffix because `initialize` is a reserved word here. -/
def initialize_step (st : FlowState) : FlowState :=
  let st := if st.counter.isSome then st else { st with counter := some 0 }
  let st := if st.user_inputs.isSome then st else { st with user_inputs := some [] }
  let st := if st.retry_count.isSome then st else { st with retry_count := some 2 }
  let st := if st.attempt_count.isSome then st else { st with attempt_count := some 1 }
  let st := if st.output_messages.isSome then st else { st with output_messages := some [] }
  let st := if st.history.isSome then st else { st with history := some [] }
  st

/-- Python `str.isspace` characters relevant to `str.strip`, over ASCII. -/
def pyIsSpace (c : Char) : Bool :=
  c == ' ' || c == '\t' || c == '\n' || c == '\r' || c == '\x0b' || c == '\x0c'

/-- Python `str.strip()`: drop whitespace from both ends. -/
def pyStrip (s : String) : String :=
  ⟨((s.data.dropWhile pyIsSpace).reverse.dropWhile pyIsSpace).reverse⟩

/-- Python `str.upper()` (ASCII letters, which is all the flow compares). -/
def pyUpper (s : String) : String :=
  ⟨s.data.map Char.toUpper⟩

/-- `handle_user_input` (source lines 40-53).  Pops `last_user_input` and
`user_input_type` (default `"user_inputs"`), returns early on a length-0
input, records a confirmation (`strip().upper() == "Y"`) or appends a
free-text input, and appends the user turn to the transcript.  The Python
return value is unused by the framework wiring, so only the state effect is
modelled. -/
def handle_user_input (st : FlowState) : FlowState :=
  match st.last_user_input with
  | some user_input =>
      let input_type := st.user_input_type.getD "user_inputs"
      let st := { st with last_user_input := none, user_input_type := none }
      if user_input.length = 0 then st
      else
        let st :=
          if input_type = "user_choice" then
            { st with user_choice := some (pyUpper (pyStrip user_input) == "Y") }
          else
            { st with user_inputs := some (st.user_inputs.getD [] ++ [user_input]) }
        { st with history := some (st.history.getD [] ++ [⟨"user", user_input⟩]) }
  | none => st

/-- The `@router(handle_user_input)` decision `routing` (source lines 55-69). -/
def routing (st : FlowState) : String :=
  if st.completed.getD false then "event_say_goodbye"
  else if (st.user_inputs.getD []).length < 2 then "event_request_user_input"
  else
    match st.user_choice with
    | some c =>
        if c then "event_say_goodbye"
        else if st.retry_count.getD 0 > 0 then "event_retry"
        else "event_say_goodbye"
    | none => "event_start_processing"

/-- `handle_retry` (source lines 71-76): decrement `retry_count`, increment
`attempt_count`, clear `raw_results`. -/
def handle_retry (st : FlowState) : FlowState :=
  { st with
    retry_count := some (st.retry_count.getD 0 - 1),
    attempt_count := some (st.attempt_count.getD 0 + 1),
    raw_results := some [] }

/-- `handle_start_processing` (source lines 78-83): ensure `raw_results`
exists, then append the five labels `attempt_{attempt_count}_raw_result_{i+1}`
for `i` in `range(5)`. -/
def handle_start_processing (st : FlowState) : FlowState :=
  let rr := st.raw_results.getD []
  let batch := (List.range 5).map (fun i =>
    "attempt_" ++ toString (st.attempt_count.getD 0) ++ "_raw_result_" ++ toString (i + 1))
  { st with raw_results := some (rr ++ batch) }

/-- `handle_processing_complete` (source lines 85-88):
`random.choice(self.state["raw_results"])`, modelled by index `r % length`. -/
def handle_processing_complete (r : Nat) (st : FlowState) : FlowState :=
  let rr := st.raw_results.getD []
  { st with final_result := some (rr.getD (r % rr.length) "") }

/-- `__add_output_message` (source lines 136-138): append the assistant turn
to the transcript and the message to `output_messages`. -/
def add_output_message (message : String) (st : FlowState) : FlowState :=
  { st with
    history := some (st.history.getD [] ++ [⟨"assistant", message⟩]),
    output_messages := some (st.output_messages.getD [] ++ [message]) }

/-- `show_final_result` (source lines 90-96): present `final_result`, ask for
Y/N, and mark the pending input kind as a confirmation. -/
def show_final_result (st : FlowState) : FlowState :=
  let output_message := "Final result: " ++ st.final_result.getD "" ++ "\nDo you accept it Y/N?"
  let st := add_output_message output_message st
  { st with user_input_type := some "user_choice" }

/-- `handle_request_user_input` (source lines 98-107): prompt for the first or
a further free-text input and mark the pending input kind as free text. -/
def handle_request_user_input (st : FlowState) : FlowState :=
  let output_message :=
    if (st.user_inputs.getD []).length = 0 then "Enter something" else "Enter something else"
  let st := { st with user_input_type := some "user_inputs" }
  add_output_message output_message st

/-- `handle_say_goodbye` (source lines 109-121): pick the already-ended,
accepted, or exhausted-retries farewell, append it, and mark `completed`. -/
def handle_say_goodbye (st : FlowState) : FlowState :=
  let output_message :=
    if st.completed.getD false then "This chat already ended. Good bye!"
    else if st.user_choice.getD false then "All done. Good bye!"
    else "Sorry, you didn't accept the result. I tried "
           ++ toString (st.attempt_count.getD 0) ++ " times... Good bye!"
  let st := add_output_message output_message st
  { st with completed := some true }

/-- The state merging `Flow.kickoff(inputs=...)` performs for the inputs that
`resume` passes: `last_user_input` is included only when `user_input` is
truthy in Python, i.e. neither `None` nor the empty string (source lines
127-128). -/
def applyInputs (user_input : Option String) (st : FlowState) : FlowState :=
  match user_input with
  | some s => if s = "" then st else { st with last_user_input := some s }
  | none => st

/-- The state reached after the start step and `handle_user_input`, i.e. the
state the router inspects. -/
def preRoute (user_input : Option String) (st : FlowState) : FlowState :=
  handle_user_input (initialize_step (applyInputs user_input st))

/-- One `kickoff` run of the flow: merge inputs, run `initialize`, run
`handle_user_input`, evaluate the router, then run the listener chain of the
routed event.  The second component is the flow output, i.e. the return value
of the last executed step: `handle_say_goodbye` returns `"event_finished"`,
and both suspension steps return `"request_user_input"`.  A route name with
no listener would end the run with no further step (final catch-all). -/
def kickoff (r : Nat) (user_input : Option String) (st0 : FlowState) : FlowState × String :=
  let st := preRoute user_input st0
  let route := routing st
  if route = "event_say_goodbye" then
    (handle_say_goodbye st, "event_finished")
  else if route = "event_request_user_input" then
    (handle_request_user_input st, "request_user_input")
  else if route = "event_retry" then
    (show_final_result (handle_processing_complete r (handle_start_processing (handle_retry st))),
     "request_user_input")
  else if route = "event_start_processing" then
    (show_final_result (handle_processing_complete r (handle_start_processing st)),
     "request_user_input")
  else
    (st, "")

/-- `resume` (source lines 123-131) on the session whose state is `st` (the
persistence lookup by id, or the creation of a fresh session, is the caller's
side and is modelled by the choice of `st`).  Returns the 4-tuple the source
returns, in the source's order
`(self.state["id"], finished, self.state["output_messages"][-1], self.state["history"])`,
with the `[-1]` indexing rendered as `List.getLast?`, together with the
post-run state. -/
def resume (r : Nat) (user_input : Option String) (st : FlowState) :
    (String × Bool × Option String × List Msg) × FlowState :=
  let out := kickoff r user_input st
  ((out.1.id, out.2 == "event_finished",
    (out.1.output_messages.getD []).getLast?, out.1.history.getD []),
   out.1)

/-- A brand-new session: the persistence layer has no record, so every state
key except the freshly generated `id` is absent. -/
def newSession (id : String) : FlowState :=
  ⟨id, none, none, none, none, none, none, none, none, none, none, none, none⟩

/-- The routing decision as the specification words it: completed sessions go
to the goodbye step; with fewer than two collected inputs, prompt again; with
a recorded confirmation choice, accept, retry while retries remain, or give
up; otherwise start processing. -/
def routingSpec (st : FlowState) : String :=
  if st.completed.getD false then "event_say_goodbye"
  else if (st.user_inputs.getD []).length < 2 then "event_request_user_input"
  else if st.user_choice.isSome then
    (if st.user_choice.getD false then "event_say_goodbye"
     else if st.retry_count.getD 0 > 0 then "event_retry"
     else "event_say_goodbye")
  else "event_start_processing"

/-- Call 1 of the spec's end-to-end scenario: `resume(None, None)` on a fresh
session whose generated id is `sid`; `r1` is that call's random draw. -/
def e2e1 (sid : String) (r1 : Nat) := resume r1 none (newSession sid)

/-- Call 2: `resume(id, "dogs")`. -/
def e2e2 (sid : String) (r1 r2 : Nat) := resume r2 (some "dogs") (e2e1 sid r1).2

/-- Call 3: `resume(id, "cats")`. -/
def e2e3 (sid : String) (r1 r2 r3 : Nat) := resume r3 (some "cats") (e2e2 sid r1 r2).2

/-- Call 4: `resume(id, "Y")`. -/
def e2e4 (sid : String) (r1 r2 r3 r4 : Nat) := resume r4 (some "Y") (e2e3 sid r1 r2 r3).2

/-- Call 5: `resume(id, "anything")`. -/
def e2e5 (sid : String) (r1 r2 r3 r4 r5 : Nat) :=
  resume r5 (some "anything") (e2e4 sid r1 r2 r3 r4).2

/-- The candidate batch of processing attempt `n`, as `handle_start_processing`
builds it. -/
def batchN (n : Int) : List String :=
  (List.range 5).map (fun i => "attempt_" ++ toString n ++ "_raw_result_" ++ toString (i + 1))

/-- The candidate picked from attempt `n` at draw index `k`. -/
def pickN (n : Int) (k : Nat) : String := (batchN n).getD k ""

/-- The confirmation prompt shown for attempt `n` at draw index `k`. -/
def msgN (n : Int) (k : Nat) : String :=
  "Final result: " ++ pickN n k ++ "\nDo you accept it Y/N?"

/-- Expected state after call 3 at draw index `k`. -/
def e2eS3 (sid : String) (k : Nat) : FlowState :=
  ⟨sid, some 0, some ["dogs", "cats"], some 2, some 1,
   some ["Enter something", "Enter something else", msgN 1 k],
   some [⟨"assistant", "Enter something"⟩, ⟨"user", "dogs"⟩,
         ⟨"assistant", "Enter something else"⟩, ⟨"user", "cats"⟩, ⟨"assistant", msgN 1 k⟩],
   none, some "user_choice", none, none, some (batchN 1), some (pickN 1 k)⟩

/-- Expected state after call 4 at draw index `k`. -/
def e2eS4 (sid : String) (k : Nat) : FlowState :=
  ⟨sid, some 0, some ["dogs", "cats"], some 2, some 1,
   some ["Enter something", "Enter something else", msgN 1 k, "All done. Good bye!"],
   some [⟨"assistant", "Enter something"⟩, ⟨"user", "dogs"⟩,
         ⟨"assistant", "Enter something else"⟩, ⟨"user", "cats"⟩, ⟨"assistant", msgN 1 k⟩,
         ⟨"user", "Y"⟩, ⟨"assistant", "All done. Good bye!"⟩],
   none, none, some true, some true, some (batchN 1), some (pickN 1 k)⟩

/-- C4 counterexample trace, call 1: fresh session. -/
def dup1 := resume 0 none (newSession "s")

/-- C4 counterexample trace, call 2: first free-text input. -/
def dup2 := resume 0 (some "a") dup1.2

/-- C4 counterexample trace, call 3: second free-text input, which triggers
attempt 1's processing. -/
def dup3 := resume 0 (some "b") dup2.2

/-- C4 counterexample trace, call 4: the user answers the confirmation prompt
with an empty line, so no input is recorded and processing re-runs. -/
def dup4 := resume 0 (some "") dup3.2

/-- C5 counterexample trace, call 2: the user sends a single space, which is
whitespace-only after trimming. -/
def ws2 := resume 0 (some " ") dup1.2

/-- Retry-scenario call 1: `resume(None, None)` on a fresh session. -/
def nRun1 (sid : String) (r1 : Nat) := resume r1 none (newSession sid)

/-- Retry-scenario call 2: the first free-text input `a`. -/
def nRun2 (sid a : String) (r1 r2 : Nat) := resume r2 (some a) (nRun1 sid r1).2

/-- Retry-scenario call 3: the second free-text input `b`. -/
def nRun3 (sid a b : String) (r1 r2 r3 : Nat) := resume r3 (some b) (nRun2 sid a r1 r2).2

/-- Retry-scenario call 4: the first "N" confirmation. -/
def nRun4 (sid a b : String) (r1 r2 r3 r4 : Nat) :=
  resume r4 (some "N") (nRun3 sid a b r1 r2 r3).2

/-- Retry-scenario call 5: the second "N" confirmation. -/
def nRun5 (sid a b : String) (r1 r2 r3 r4 r5 : Nat) :=
  resume r5 (some "N") (nRun4 sid a b r1 r2 r3 r4).2

/-- Retry-scenario call 6: the third "N" confirmation. -/
def nRun6 (sid a b : String) (r1 r2 r3 r4 r5 r6 : Nat) :=
  resume r6 (some "N") (nRun5 sid a b r1 r2 r3 r4 r5).2

/-- Accept-scenario call 4: a "Y" confirmation after the two free-text
inputs of `nRun3`. -/
def yRun4 (sid a b : String) (r1 r2 r3 r4 : Nat) :=
  resume r4 (some "Y") (nRun3 sid a b r1 r2 r3).2

theorem string_length_eq_zero {s : String} : s.length = 0 ↔ s = "" := by
  obtain ⟨data⟩ := s
  constructor
  · intro h
    simp only [String.length] at h
    simp [List.length_eq_zero] at h
    simp [h]
  · intro h
    rw [h]
    rfl

theorem routing_mem (st : FlowState) :
    routing st = "event_say_goodbye" ∨ routing st = "event_request_user_input" ∨
    routing st = "event_retry" ∨ routing st = "event_start_processing" := by
  cases hc : st.user_choice <;> simp only [routing, hc] <;> split_ifs <;> simp

theorem initialize_step_eq (st : FlowState) :
    initialize_step st = { st with
      counter := some (st.counter.getD 0),
      user_inputs := some (st.user_inputs.getD []),
      retry_count := some (st.retry_count.getD 2),
      attempt_count := some (st.attempt_count.getD 1),
      output_messages := some (st.output_messages.getD []),
      history := some (st.history.getD []) } := by
  obtain ⟨i, c, ui, rc, ac, om, hi, l, t, ch, cp, rr, fr⟩ := st
  cases c <;> cases ui <;> cases rc <;> cases ac <;> cases om <;> cases hi <;> rfl

theorem applyInputs_shape (u : Option String) (st : FlowState) :
    ∃ l, applyInputs u st = { st with last_user_input := l } := by
  cases u with
  | none => exact ⟨st.last_user_input, rfl⟩
  | some s =>
    by_cases h : s = ""
    · exact ⟨st.last_user_input, by simp [applyInputs, h]⟩
    · exact ⟨some s, by simp [applyInputs, h]⟩

theorem preRoute_spec (u : Option String) (st : FlowState) :
    ∃ l t c ui h2,
      preRoute u st = { st with
        counter := some (st.counter.getD 0),
        user_inputs := some ui,
        retry_count := some (st.retry_count.getD 2),
        attempt_count := some (st.attempt_count.getD 1),
        output_messages := some (st.output_messages.getD []),
        history := some h2,
        last_user_input := l,
        user_input_type := t,
        user_choice := c } := by
  obtain ⟨l0, h0⟩ := applyInputs_shape u st
  unfold preRoute
  rw [h0, initialize_step_eq]
  cases l0 with
  | none =>
      exact ⟨none, st.user_input_type, st.user_choice, st.user_inputs.getD [],
        st.history.getD [], rfl⟩
  | some s =>
      by_cases hlen : s.length = 0
      · refine ⟨none, none, st.user_choice, st.user_inputs.getD [], st.history.getD [], ?_⟩
        simp [handle_user_input, hlen]
      · by_cases ht : st.user_input_type.getD "user_inputs" = "user_choice"
        · refine ⟨none, none, some (pyUpper (pyStrip s) == "Y"), st.user_inputs.getD [],
            st.history.getD [] ++ [⟨"user", s⟩], ?_⟩
          simp [handle_user_input, hlen, ht]
        · refine ⟨none, none, st.user_choice, st.user_inputs.getD [] ++ [s],
            st.history.getD [] ++ [⟨"user", s⟩], ?_⟩
          simp [handle_user_input, hlen, ht]

theorem kickoff_branches (r : Nat) (u : Option String) (st : FlowState) :
    (routing (preRoute u st) = "event_say_goodbye" ∧
      kickoff r u st = (handle_say_goodbye (preRoute u st), "event_finished")) ∨
    (routing (preRoute u st) = "event_request_user_input" ∧
      kickoff r u st = (handle_request_user_input (preRoute u st), "request_user_input")) ∨
    (routing (preRoute u st) = "event_retry" ∧
      kickoff r u st =
        (show_final_result (handle_processing_complete r
          (handle_start_processing (handle_retry (preRoute u st)))), "request_user_input")) ∨
    (routing (preRoute u st) = "event_start_processing" ∧
      kickoff r u st =
        (show_final_result (handle_processing_complete r
          (handle_start_processing (preRoute u st))), "request_user_input")) := by
  rcases routing_mem (preRoute u st) with h | h | h | h
  · exact Or.inl ⟨h, by simp [kickoff, h]⟩
  · exact Or.inr (Or.inl ⟨h, by simp [kickoff, h]⟩)
  · exact Or.inr (Or.inr (Or.inl ⟨h, by simp [kickoff, h]⟩))
  · exact Or.inr (Or.inr (Or.inr ⟨h, by simp [kickoff, h]⟩))

theorem kickoff_spec (r : Nat) (u : Option String) (st : FlowState) :
    ∃ m pre,
      (kickoff r u st).1.output_messages = some (st.output_messages.getD [] ++ [m]) ∧
      (kickoff r u st).1.history = some (pre ++ [⟨"assistant", m⟩]) := by
  obtain ⟨l, t, c, ui, h2, hpr⟩ := preRoute_spec u st
  rcases kickoff_branches r u st with h | h | h | h <;> rw [h.2, hpr]
  · exact ⟨_, _, by simp [handle_say_goodbye, add_output_message]; rfl,
      by simp [handle_say_goodbye, add_output_message]; rfl⟩
  · exact ⟨_, _, by simp [handle_request_user_input, add_output_message]; rfl,
      by simp [handle_request_user_input, add_output_message]; rfl⟩
  · exact ⟨_, _,
      by simp [show_final_result, handle_processing_complete, handle_start_processing,
        handle_retry, add_output_message]; rfl,
      by simp [show_final_result, handle_processing_complete, handle_start_processing,
        handle_retry, add_output_message]; rfl⟩
  · exact ⟨_, _,
      by simp [show_final_result, handle_processing_complete, handle_start_processing,
        add_output_message]; rfl,
      by simp [show_final_result, handle_processing_complete, handle_start_processing,
        add_output_message]; rfl⟩

@[simp] theorem say_goodbye_id (st : FlowState) : (handle_say_goodbye st).id = st.id := rfl
@[simp] theorem say_goodbye_retry (st : FlowState) : (handle_say_goodbye st).retry_count = st.retry_count := rfl
@[simp] theorem say_goodbye_attempt (st : FlowState) : (handle_say_goodbye st).attempt_count = st.attempt_count := rfl
@[simp] theorem say_goodbye_completed (st : FlowState) : (handle_say_goodbye st).completed = some true := rfl
@[simp] theorem request_id (st : FlowState) : (handle_request_user_input st).id = st.id := rfl
@[simp] theorem request_completed (st : FlowState) : (handle_request_user_input st).completed = st.completed := rfl
@[simp] theorem show_id (st : FlowState) : (show_final_result st).id = st.id := rfl
@[simp] theorem show_completed (st : FlowState) : (show_final_result st).completed = st.completed := rfl
@[simp] theorem hpc_id (r : Nat) (st : FlowState) : (handle_processing_complete r st).id = st.id := rfl
@[simp] theorem hpc_completed (r : Nat) (st : FlowState) : (handle_processing_complete r st).completed = st.completed := rfl
@[simp] theorem hsp_id (st : FlowState) : (handle_start_processing st).id = st.id := rfl
@[simp] theorem hsp_completed (st : FlowState) : (handle_start_processing st).completed = st.completed := rfl
@[simp] theorem hretry_id (st : FlowState) : (handle_retry st).id = st.id := rfl
@[simp] theorem hretry_completed (st : FlowState) : (handle_retry st).completed = st.completed := rfl

theorem routing_completed {st : FlowState} (h : routing st ≠ "event_say_goodbye") :
    st.completed.getD false = false := by
  by_cases hc : st.completed.getD false
  · exact absurd (by simp [routing, hc]) h
  · simpa using hc

theorem kickoff_id (r : Nat) (u : Option String) (st : FlowState) :
    (kickoff r u st).1.id = st.id := by
  obtain ⟨l, t, c, ui, h2, hpr⟩ := preRoute_spec u st
  rcases kickoff_branches r u st with h | h | h | h <;> rw [h.2] <;> simp [hpr]

theorem kickoff_finished_iff (r : Nat) (u : Option String) (st : FlowState) :
    (kickoff r u st).2 = "event_finished" ↔ (kickoff r u st).1.completed = some true := by
  rcases kickoff_branches r u st with h | h | h | h <;> rw [h.2] <;> simp
  · have hc : (preRoute u st).completed.getD false = false :=
      routing_completed (by rw [h.1]; decide)
    intro hx
    rw [hx] at hc
    simp at hc
  · have hc : (preRoute u st).completed.getD false = false :=
      routing_completed (by rw [h.1]; decide)
    intro hx
    rw [hx] at hc
    simp at hc
  · have hc : (preRoute u st).completed.getD false = false :=
      routing_completed (by rw [h.1]; decide)
    intro hx
    rw [hx] at hc
    simp at hc

theorem getLast?_concat_eq {α : Type} (l : List α) (a : α) : (l ++ [a]).getLast? = some a := by
  rw [List.getLast?_append_cons]
  rfl

theorem already_ended (r : Nat) (u : Option String) (st : FlowState)
    (hc : st.completed = some true) (hr : st.retry_count.isSome)
    (ha : st.attempt_count.isSome) :
    (resume r u st).1.2.2.1 = some "This chat already ended. Good bye!" ∧
    (resume r u st).1.2.1 = true ∧
    (resume r u st).2.retry_count = st.retry_count ∧
    (resume r u st).2.attempt_count = st.attempt_count ∧
    (resume r u st).2.completed = some true := by
  obtain ⟨l, t, c, ui, h2, hpr⟩ := preRoute_spec u st
  have hroute : routing (preRoute u st) = "event_say_goodbye" := by
    rw [hpr]; simp [routing, hc]
  have hk : kickoff r u st = (handle_say_goodbye (preRoute u st), "event_finished") := by
    simp [kickoff, hroute]
  obtain ⟨v, hv⟩ := Option.isSome_iff_exists.mp hr
  obtain ⟨w, hw⟩ := Option.isSome_iff_exists.mp ha
  simp only [resume, hk]
  refine ⟨?_, rfl, ?_, ?_, rfl⟩
  · rw [hpr]
    simp [handle_say_goodbye, add_output_message, hc, getLast?_concat_eq]
  · rw [hpr]
    simp [hv]
  · rw [hpr]
    simp [hw]

/-- C3: `routing` is a pure, total, deterministic function of the session
state (it is a Lean function of the state alone); it agrees with the
specification's priority order (`routingSpec`) on every state, and it never
returns anything but the four step names. -/
theorem routing_matches_spec_and_total (st : FlowState) :
    routing st = routingSpec st ∧
    (routing st = "event_say_goodbye" ∨ routing st = "event_request_user_input" ∨
     routing st = "event_retry" ∨ routing st = "event_start_processing") := by
  constructor
  · cases hc : st.user_choice <;> simp [routing, routingSpec, hc]
  · exact routing_mem st

/-- C7: the start step repairs exactly the missing required fields (each of
the six required fields ends up present, holding its old value when it was
present and the first-run default otherwise, and no other field is touched),
and `resume` total: on every state the run ends with a defined
last output message rather than failing. -/
theorem resume_repairs_and_never_fails (st : FlowState) (r : Nat) (u : Option String) :
    ((initialize_step st).counter = some (st.counter.getD 0) ∧
     (initialize_step st).user_inputs = some (st.user_inputs.getD []) ∧
     (initialize_step st).retry_count = some (st.retry_count.getD 2) ∧
     (initialize_step st).attempt_count = some (st.attempt_count.getD 1) ∧
     (initialize_step st).output_messages = some (st.output_messages.getD []) ∧
     (initialize_step st).history = some (st.history.getD [])) ∧
    ((initialize_step st).id = st.id ∧
     (initialize_step st).last_user_input = st.last_user_input ∧
     (initialize_step st).user_input_type = st.user_input_type ∧
     (initialize_step st).user_choice = st.user_choice ∧
     (initialize_step st).completed = st.completed ∧
     (initialize_step st).raw_results = st.raw_results ∧
     (initialize_step st).final_result = st.final_result) ∧
    (∃ m, (resume r u st).1.2.2.1 = some m) := by
  refine ⟨?_, ?_, ?_⟩
  · rw [initialize_step_eq]
    exact ⟨rfl, rfl, rfl, rfl, rfl, rfl⟩
  · rw [initialize_step_eq]
    exact ⟨rfl, rfl, rfl, rfl, rfl, rfl, rfl⟩
  · obtain ⟨m, pre, h1, h2⟩ := kickoff_spec r u st
    refine ⟨m, ?_⟩
    simp [resume, h1, getLast?_concat_eq]

/-- C8: the start step is idempotent, leaves already-present values of the
six required fields unchanged, and sets the documented first-run default for
each field that is absent. -/
theorem initialize_idempotent (st : FlowState) :
    initialize_step (initialize_step st) = initialize_step st ∧
    ((∀ v, st.counter = some v → (initialize_step st).counter = some v) ∧
     (∀ v, st.user_inputs = some v → (initialize_step st).user_inputs = some v) ∧
     (∀ v, st.retry_count = some v → (initialize_step st).retry_count = some v) ∧
     (∀ v, st.attempt_count = some v → (initialize_step st).attempt_count = some v) ∧
     (∀ v, st.output_messages = some v → (initialize_step st).output_messages = some v) ∧
     (∀ v, st.history = some v → (initialize_step st).history = some v)) ∧
    ((st.counter = none → (initialize_step st).counter = some 0) ∧
     (st.user_inputs = none → (initialize_step st).user_inputs = some []) ∧
     (st.retry_count = none → (initialize_step st).retry_count = some 2) ∧
     (st.attempt_count = none → (initialize_step st).attempt_count = some 1) ∧
     (st.output_messages = none → (initialize_step st).output_messages = some []) ∧
     (st.history = none → (initialize_step st).history = some [])) := by
  refine ⟨?_, ?_, ?_⟩
  · rw [initialize_step_eq, initialize_step_eq]
    simp
  · exact ⟨fun v h => by rw [initialize_step_eq]; simp [h],
      fun v h => by rw [initialize_step_eq]; simp [h],
      fun v h => by rw [initialize_step_eq]; simp [h],
      fun v h => by rw [initialize_step_eq]; simp [h],
      fun v h => by rw [initialize_step_eq]; simp [h],
      fun v h => by rw [initialize_step_eq]; simp [h]⟩
  · exact ⟨fun h => by rw [initialize_step_eq]; simp [h],
      fun h => by rw [initialize_step_eq]; simp [h],
      fun h => by rw [initialize_step_eq]; simp [h],
      fun h => by rw [initialize_step_eq]; simp [h],
      fun h => by rw [initialize_step_eq]; simp [h],
      fun h => by rw [initialize_step_eq]; simp [h]⟩

/-- C8 witness: on a concrete state with every field present, a second run of
the start step changes nothing and the present values survive. -/
theorem initialize_idempotent_witness :
    (initialize_step (initialize_step ⟨"w", some 9, some ["x"], some 7, some 4, some ["m"], some [], none, none, none, none, none, none⟩) =
      initialize_step ⟨"w", some 9, some ["x"], some 7, some 4, some ["m"], some [], none, none, none, none, none, none⟩) ∧
    (initialize_step (⟨"w", some 9, some ["x"], some 7, some 4, some ["m"], some [], none, none, none, none, none, none⟩ : FlowState)).retry_count = some 7 ∧
    (initialize_step (⟨"w", some 9, some ["x"], some 7, some 4, some ["m"], some [], none, none, none, none, none, none⟩ : FlowState)).user_inputs = some ["x"] ∧
    (initialize_step (⟨"w", some 9, some ["x"], some 7, some 4, some ["m"], some [], none, none, none, none, none, none⟩ : FlowState)).attempt_count = some 4 := by
  have h := initialize_idempotent
    ⟨"w", some 9, some ["x"], some 7, some 4, some ["m"], some [], none, none, none, none, none, none⟩
  exact ⟨h.1, h.2.1.2.2.1 7 rfl, h.2.1.2.1 ["x"] rfl, h.2.1.2.2.2.1 4 rfl⟩

/-- C10: every `kickoff` run (hence every `resume` call, the very first one
on a fresh session included) appends exactly one assistant message to
`output_messages` and to the transcript, so the `output_messages[-1]` that
`resume` returns is defined and was produced during the current call. -/
theorem resume_appends_message (r : Nat) (u : Option String) (st : FlowState) :
    ∃ m pre,
      (resume r u st).2.output_messages = some (st.output_messages.getD [] ++ [m]) ∧
      (resume r u st).2.history = some (pre ++ [⟨"assistant", m⟩]) ∧
      (resume r u st).1.2.2.1 = some m := by
  obtain ⟨m, pre, h1, h2⟩ := kickoff_spec r u st
  refine ⟨m, pre, ?_, ?_, ?_⟩
  · simpa [resume] using h1
  · simpa [resume] using h2
  · simp [resume, h1, getLast?_concat_eq]

/-- C9 counterexample: on a fresh session's first call the SECOND component
of the returned tuple is the finished flag (here `false`) and the THIRD is
the output message `"Enter something"` — not the other way round as the
claimed order `(session_id, output_message, finished, transcript)` says. -/
theorem resume_tuple_order_counterexample :
    (resume 0 none (newSession "s")).1.2.1 = false ∧
    (resume 0 none (newSession "s")).1.2.2.1 = some "Enter something" ∧
    (resume 0 (some "x") (resume 0 none (newSession "s")).2).1.2.1 = false := by
  exact ⟨rfl, rfl, rfl⟩

/-- C9 as amended: `resume` returns the 4-tuple
`(session_id, finished, last_output_message, transcript)` — the finished flag
second and the message third — where the id is the session's id, the
finished flag holds exactly when the post-run state is marked completed, the
message is the last entry of `output_messages`, and the transcript is the
full history. -/
theorem resume_tuple_shape (r : Nat) (u : Option String) (st : FlowState) :
    (resume r u st).1.1 = st.id ∧
    ((resume r u st).1.2.1 = true ↔ (resume r u st).2.completed = some true) ∧
    (resume r u st).1.2.2.1 = ((resume r u st).2.output_messages.getD []).getLast? ∧
    (resume r u st).1.2.2.2 = (resume r u st).2.history.getD [] := by
  refine ⟨?_, ?_, rfl, rfl⟩
  · simpa [resume] using kickoff_id r u st
  · have h := kickoff_finished_iff r u st
    simp only [resume]
    constructor
    · intro hx
      exact h.mp (by simpa using hx)
    · intro hx
      simp [h.mpr hx]

/-- C1: the five-call scenario returns, in order: the fresh session id with
"Enter something" and finished=false; "Enter something else", not finished;
"Final result: attempt_1_raw_result_k\nDo you accept it Y/N?" for some k in
1..5, not finished; "All done. Good bye!", finished; and
"This chat already ended. Good bye!", finished — for every session id and
every sequence of random draws. -/
theorem end_to_end_scenario (sid : String) (r1 r2 r3 r4 r5 : Nat) :
    ((e2e1 sid r1).1.1 = sid ∧
      (e2e1 sid r1).1.2.2.1 = some "Enter something" ∧ (e2e1 sid r1).1.2.1 = false) ∧
    ((e2e2 sid r1 r2).1.2.2.1 = some "Enter something else" ∧
      (e2e2 sid r1 r2).1.2.1 = false) ∧
    (∃ k, 1 ≤ k ∧ k ≤ 5 ∧
      (e2e3 sid r1 r2 r3).1.2.2.1 =
        some ("Final result: attempt_1_raw_result_" ++ toString k ++ "\nDo you accept it Y/N?") ∧
      (e2e3 sid r1 r2 r3).1.2.1 = false) ∧
    ((e2e4 sid r1 r2 r3 r4).1.2.2.1 = some "All done. Good bye!" ∧
      (e2e4 sid r1 r2 r3 r4).1.2.1 = true) ∧
    ((e2e5 sid r1 r2 r3 r4 r5).1.2.2.1 = some "This chat already ended. Good bye!" ∧
      (e2e5 sid r1 r2 r3 r4 r5).1.2.1 = true) := by
  have h1 : (e2e1 sid r1).2 =
      ⟨sid, some 0, some [], some 2, some 1, some ["Enter something"],
       some [⟨"assistant", "Enter something"⟩], none, some "user_inputs",
       none, none, none, none⟩ := rfl
  have h2 : (e2e2 sid r1 r2).2 =
      ⟨sid, some 0, some ["dogs"], some 2, some 1,
       some ["Enter something", "Enter something else"],
       some [⟨"assistant", "Enter something"⟩, ⟨"user", "dogs"⟩,
             ⟨"assistant", "Enter something else"⟩],
       none, some "user_inputs", none, none, none, none⟩ := by
    unfold e2e2
    rw [h1]
    rfl
  have h3 : (e2e3 sid r1 r2 r3).2 = e2eS3 sid (r3 % 5) := by
    unfold e2e3
    rw [h2]
    rfl
  have h3m : (e2e3 sid r1 r2 r3).1.2.2.1 = some (msgN 1 (r3 % 5)) := by
    unfold e2e3
    rw [h2]
    rfl
  have h3f : (e2e3 sid r1 r2 r3).1.2.1 = false := by
    unfold e2e3
    rw [h2]
    rfl
  have h4 : (e2e4 sid r1 r2 r3 r4).2 = e2eS4 sid (r3 % 5) := by
    unfold e2e4
    rw [h3]
    rfl
  have h4m : (e2e4 sid r1 r2 r3 r4).1.2.2.1 = some "All done. Good bye!" := by
    unfold e2e4
    rw [h3]
    rfl
  have h4f : (e2e4 sid r1 r2 r3 r4).1.2.1 = true := by
    unfold e2e4
    rw [h3]
    rfl
  have h5m : (e2e5 sid r1 r2 r3 r4 r5).1.2.2.1 =
      some "This chat already ended. Good bye!" := by
    unfold e2e5
    rw [h4]
    rfl
  have h5f : (e2e5 sid r1 r2 r3 r4 r5).1.2.1 = true := by
    unfold e2e5
    rw [h4]
    rfl
  refine ⟨⟨rfl, rfl, rfl⟩, ⟨?_, ?_⟩, ?_, ⟨h4m, h4f⟩, ⟨h5m, h5f⟩⟩
  · unfold e2e2
    rw [h1]
    rfl
  · unfold e2e2
    rw [h1]
    rfl
  · refine ⟨r3 % 5 + 1, by omega, by omega, ?_, h3f⟩
    rw [h3m]
    have hc : r3 % 5 = 0 ∨ r3 % 5 = 1 ∨ r3 % 5 = 2 ∨ r3 % 5 = 3 ∨ r3 % 5 = 4 := by omega
    rcases hc with h | h | h | h | h <;> rw [h] <;> rfl

/-- C4 counterexample: after an empty input at the confirmation prompt the
processing step re-runs without an intervening retry, and `raw_results` then
holds the attempt-1 batch twice — ten entries for attempt number 1, refuting
"raw_results never contains more than 5 entries for one attempt number". -/
theorem raw_results_overflow_counterexample :
    dup3.2.raw_results = some (batchN 1) ∧
    dup4.2.raw_results = some (batchN 1 ++ batchN 1) ∧
    (batchN 1 ++ batchN 1).length = 10 ∧
    batchN 1 = ["attempt_1_raw_result_1", "attempt_1_raw_result_2", "attempt_1_raw_result_3",
      "attempt_1_raw_result_4", "attempt_1_raw_result_5"] := by
  have k1 : dup1.2 =
      ⟨"s", some 0, some [], some 2, some 1, some ["Enter something"],
       some [⟨"assistant", "Enter something"⟩], none, some "user_inputs",
       none, none, none, none⟩ := rfl
  have k2 : dup2.2 =
      ⟨"s", some 0, some ["a"], some 2, some 1,
       some ["Enter something", "Enter something else"],
       some [⟨"assistant", "Enter something"⟩, ⟨"user", "a"⟩,
             ⟨"assistant", "Enter something else"⟩],
       none, some "user_inputs", none, none, none, none⟩ := by
    unfold dup2
    rw [k1]
    rfl
  have k3 : dup3.2 =
      ⟨"s", some 0, some ["a", "b"], some 2, some 1,
       some ["Enter something", "Enter something else", msgN 1 0],
       some [⟨"assistant", "Enter something"⟩, ⟨"user", "a"⟩,
             ⟨"assistant", "Enter something else"⟩, ⟨"user", "b"⟩,
             ⟨"assistant", msgN 1 0⟩],
       none, some "user_choice", none, none, some (batchN 1), some (pickN 1 0)⟩ := by
    unfold dup3
    rw [k2]
    rfl
  refine ⟨by rw [k3], ?_, by decide, by decide⟩
  unfold dup4
  rw [k3]
  rfl

/-- C4 as amended: every run of `handle_start_processing` appends exactly
five candidates, named `attempt_{attempt_count}_raw_result_{1..5}`, to
`raw_results`, and `handle_retry` clears `raw_results`; however (per the
counterexample) `raw_results` can exceed five entries for one attempt number
when processing re-runs without an intervening retry. -/
theorem batch_exactly_five (st : FlowState) :
    (∃ batch, (handle_start_processing st).raw_results =
        some (st.raw_results.getD [] ++ batch) ∧
      batch.length = 5 ∧
      ∀ i, i < 5 → batch.getD i "" =
        "attempt_" ++ toString (st.attempt_count.getD 0) ++ "_raw_result_" ++ toString (i + 1)) ∧
    (handle_retry st).raw_results = some [] := by
  refine ⟨⟨batchN (st.attempt_count.getD 0), rfl, rfl, ?_⟩, rfl⟩
  intro i hi
  have hc : i = 0 ∨ i = 1 ∨ i = 2 ∨ i = 3 ∨ i = 4 := by omega
  rcases hc with h | h | h | h | h <;> rw [h] <;> rfl

/-- C4 amended witness: the batch of a state in attempt 2 with one stale
entry: five new labelled candidates are appended after the old entry. -/
theorem batch_exactly_five_witness :
    (handle_start_processing
        ⟨"w", none, none, none, some 2, none, none, none, none, none, none, some ["old"], none⟩).raw_results =
      some ["old", "attempt_2_raw_result_1", "attempt_2_raw_result_2", "attempt_2_raw_result_3",
        "attempt_2_raw_result_4", "attempt_2_raw_result_5"] := by
  have h := (batch_exactly_five
    ⟨"w", none, none, none, some 2, none, none, none, none, none, none, some ["old"], none⟩).1
  obtain ⟨batch, hb, hlen, helts⟩ := h
  rw [hb]
  have h0 := helts 0 (by omega)
  have h1 := helts 1 (by omega)
  have h2 := helts 2 (by omega)
  have h3 := helts 3 (by omega)
  have h4 := helts 4 (by omega)
  match batch, hlen with
  | [b0, b1, b2, b3, b4], _ =>
    simp only [List.getD] at h0 h1 h2 h3 h4
    simp at h0 h1 h2 h3 h4
    simp [h0, h1, h2, h3, h4]
    refine ⟨by decide, by decide, by decide, by decide, by decide⟩

/-- C5 counterexample: an input that is whitespace-only after trimming is NOT
treated as "no input": `handle_user_input` appends it to `user_inputs` and to
the transcript (only a length-0 input is ignored), refuting the claim that
such inputs cause no state mutation. -/
theorem whitespace_input_counterexample :
    pyStrip " " = "" ∧
    dup1.2.user_inputs = some [] ∧
    ws2.2.user_inputs = some [" "] ∧
    ws2.2.history =
      some [⟨"assistant", "Enter something"⟩, ⟨"user", " "⟩,
            ⟨"assistant", "Enter something else"⟩] := by
  have k1 : dup1.2 =
      ⟨"s", some 0, some [], some 2, some 1, some ["Enter something"],
       some [⟨"assistant", "Enter something"⟩], none, some "user_inputs",
       none, none, none, none⟩ := rfl
  refine ⟨by decide, by rw [k1], ?_, ?_⟩
  · unfold ws2
    rw [k1]
    rfl
  · unfold ws2
    rw [k1]
    rfl

/-- C5 as amended: only a length-0 input is treated as "no input received":
`handle_user_input` then leaves `user_inputs`, `user_choice` and the
transcript unchanged (it only clears the pending-input keys), the routing
decision is the same as with no pending input, and `resume` with an empty
string behaves exactly like `resume` with no input (so the same-kind prompt
is re-issued without advancing state); whitespace-only input, by contrast,
is handled as ordinary input. -/
theorem empty_input_no_mutation (st : FlowState) (r : Nat) :
    (handle_user_input { st with last_user_input := some "" }).user_inputs = st.user_inputs ∧
    (handle_user_input { st with last_user_input := some "" }).user_choice = st.user_choice ∧
    (handle_user_input { st with last_user_input := some "" }).history = st.history ∧
    routing (handle_user_input { st with last_user_input := some "" }) = routing st ∧
    resume r (some "") st = resume r none st := by
  have he : handle_user_input { st with last_user_input := some "" } =
      { st with last_user_input := none, user_input_type := none } := by
    simp [handle_user_input]
  rw [he]
  exact ⟨rfl, rfl, rfl, rfl, rfl⟩

/-- C2: for every session given two non-empty free-text inputs and repeated
"N" confirmations, the retry step fires exactly twice (the initial
`retry_count`): before the first "N" the counters are `retry_count=2`,
`attempt_count=1`; the first "N" triggers retry one (`1`/`2`), the second
triggers retry two (`0`/`3`), and the third routes to `say_goodbye` with the
exhausted-attempts message naming 3 attempts, with `attempt_count` ending at
`2 + 1 = 3`. -/
theorem retry_exhaustion (sid a b : String) (ha : a ≠ "") (hb : b ≠ "")
    (r1 r2 r3 r4 r5 r6 : Nat) :
    ((nRun3 sid a b r1 r2 r3).2.retry_count = some 2 ∧
      (nRun3 sid a b r1 r2 r3).2.attempt_count = some 1) ∧
    ((nRun4 sid a b r1 r2 r3 r4).2.retry_count = some 1 ∧
      (nRun4 sid a b r1 r2 r3 r4).2.attempt_count = some 2) ∧
    ((nRun5 sid a b r1 r2 r3 r4 r5).2.retry_count = some 0 ∧
      (nRun5 sid a b r1 r2 r3 r4 r5).2.attempt_count = some 3) ∧
    ((nRun6 sid a b r1 r2 r3 r4 r5 r6).1.2.2.1 =
        some "Sorry, you didn't accept the result. I tried 3 times... Good bye!" ∧
      (nRun6 sid a b r1 r2 r3 r4 r5 r6).1.2.1 = true ∧
      (nRun6 sid a b r1 r2 r3 r4 r5 r6).2.attempt_count = some 3 ∧
      (nRun6 sid a b r1 r2 r3 r4 r5 r6).2.retry_count = some 0) := by
  have hla : ¬(a.length = 0) := by simpa [string_length_eq_zero] using ha
  have hlb : ¬(b.length = 0) := by simpa [string_length_eq_zero] using hb
  have s1 : (nRun1 sid r1).2 =
      ⟨sid, some 0, some [], some 2, some 1, some ["Enter something"],
       some [⟨"assistant", "Enter something"⟩], none, some "user_inputs",
       none, none, none, none⟩ := rfl
  have s2 : (nRun2 sid a r1 r2).2 =
      ⟨sid, some 0, some [a], some 2, some 1,
       some ["Enter something", "Enter something else"],
       some [⟨"assistant", "Enter something"⟩, ⟨"user", a⟩,
             ⟨"assistant", "Enter something else"⟩],
       none, some "user_inputs", none, none, none, none⟩ := by
    unfold nRun2
    rw [s1]
    simp [resume, kickoff, preRoute, applyInputs, initialize_step, handle_user_input,
      routing, handle_request_user_input, add_output_message, ha, hla]
  have s3 : (nRun3 sid a b r1 r2 r3).2 =
      ⟨sid, some 0, some [a, b], some 2, some 1,
       some ["Enter something", "Enter something else", msgN 1 (r3 % 5)],
       some [⟨"assistant", "Enter something"⟩, ⟨"user", a⟩,
             ⟨"assistant", "Enter something else"⟩, ⟨"user", b⟩,
             ⟨"assistant", msgN 1 (r3 % 5)⟩],
       none, some "user_choice", none, none, some (batchN 1), some (pickN 1 (r3 % 5))⟩ := by
    unfold nRun3
    rw [s2]
    simp [resume, kickoff, preRoute, applyInputs, initialize_step, handle_user_input,
      routing, handle_start_processing, handle_processing_complete, show_final_result,
      add_output_message, hb, hlb, batchN, pickN, msgN]
  have s4 : (nRun4 sid a b r1 r2 r3 r4).2 =
      ⟨sid, some 0, some [a, b], some 1, some 2,
       some ["Enter something", "Enter something else", msgN 1 (r3 % 5), msgN 2 (r4 % 5)],
       some [⟨"assistant", "Enter something"⟩, ⟨"user", a⟩,
             ⟨"assistant", "Enter something else"⟩, ⟨"user", b⟩,
             ⟨"assistant", msgN 1 (r3 % 5)⟩, ⟨"user", "N"⟩,
             ⟨"assistant", msgN 2 (r4 % 5)⟩],
       none, some "user_choice", some false, none, some (batchN 2),
       some (pickN 2 (r4 % 5))⟩ := by
    unfold nRun4
    rw [s3]
    rfl
  have s5 : (nRun5 sid a b r1 r2 r3 r4 r5).2 =
      ⟨sid, some 0, some [a, b], some 0, some 3,
       some ["Enter something", "Enter something else", msgN 1 (r3 % 5), msgN 2 (r4 % 5),
             msgN 3 (r5 % 5)],
       some [⟨"assistant", "Enter something"⟩, ⟨"user", a⟩,
             ⟨"assistant", "Enter something else"⟩, ⟨"user", b⟩,
             ⟨"assistant", msgN 1 (r3 % 5)⟩, ⟨"user", "N"⟩,
             ⟨"assistant", msgN 2 (r4 % 5)⟩, ⟨"user", "N"⟩,
             ⟨"assistant", msgN 3 (r5 % 5)⟩],
       none, some "user_choice", some false, none, some (batchN 3),
       some (pickN 3 (r5 % 5))⟩ := by
    unfold nRun5
    rw [s4]
    rfl
  refine ⟨⟨by rw [s3], by rw [s3]⟩, ⟨by rw [s4], by rw [s4]⟩, ⟨by rw [s5], by rw [s5]⟩,
    ?_, ?_, ?_, ?_⟩ <;>
    unfold nRun6 <;> rw [s5] <;> rfl

/-- C2 witness: the retry scenario at concrete inputs "aa", "bb". -/
theorem retry_exhaustion_witness :
    (nRun6 "s" "aa" "bb" 0 0 0 0 0 0).1.2.2.1 =
      some "Sorry, you didn't accept the result. I tried 3 times... Good bye!" ∧
    (nRun6 "s" "aa" "bb" 0 0 0 0 0 0).2.attempt_count = some 3 ∧
    (nRun5 "s" "aa" "bb" 0 0 0 0 0).2.retry_count = some 0 :=
  ⟨(retry_exhaustion "s" "aa" "bb" (by decide) (by decide) 0 0 0 0 0 0).2.2.2.1,
   (retry_exhaustion "s" "aa" "bb" (by decide) (by decide) 0 0 0 0 0 0).2.2.2.2.2.1,
   (retry_exhaustion "s" "aa" "bb" (by decide) (by decide) 0 0 0 0 0 0).2.2.1.1⟩

/-- C6: for every session given two non-empty free-text inputs and then a
"Y" confirmation, the run reaches `say_goodbye` with the success message and
`completed=true`; and EVERY later `resume` call, whatever its input, returns
the already-ended message with finished=true and leaves `retry_count` and
`attempt_count` unchanged. -/
theorem accept_then_idempotent (sid a b : String) (ha : a ≠ "") (hb : b ≠ "")
    (r1 r2 r3 r4 : Nat) :
    (yRun4 sid a b r1 r2 r3 r4).1.2.2.1 = some "All done. Good bye!" ∧
    (yRun4 sid a b r1 r2 r3 r4).1.2.1 = true ∧
    (yRun4 sid a b r1 r2 r3 r4).2.completed = some true ∧
    (yRun4 sid a b r1 r2 r3 r4).2.retry_count = some 2 ∧
    (yRun4 sid a b r1 r2 r3 r4).2.attempt_count = some 1 ∧
    ∀ u r5,
      (resume r5 u (yRun4 sid a b r1 r2 r3 r4).2).1.2.2.1 =
          some "This chat already ended. Good bye!" ∧
        (resume r5 u (yRun4 sid a b r1 r2 r3 r4).2).1.2.1 = true ∧
        (resume r5 u (yRun4 sid a b r1 r2 r3 r4).2).2.retry_count =
          (yRun4 sid a b r1 r2 r3 r4).2.retry_count ∧
        (resume r5 u (yRun4 sid a b r1 r2 r3 r4).2).2.attempt_count =
          (yRun4 sid a b r1 r2 r3 r4).2.attempt_count := by
  have hla : ¬(a.length = 0) := by simpa [string_length_eq_zero] using ha
  have hlb : ¬(b.length = 0) := by simpa [string_length_eq_zero] using hb
  have s1 : (nRun1 sid r1).2 =
      ⟨sid, some 0, some [], some 2, some 1, some ["Enter something"],
       some [⟨"assistant", "Enter something"⟩], none, some "user_inputs",
       none, none, none, none⟩ := rfl
  have s2 : (nRun2 sid a r1 r2).2 =
      ⟨sid, some 0, some [a], some 2, some 1,
       some ["Enter something", "Enter something else"],
       some [⟨"assistant", "Enter something"⟩, ⟨"user", a⟩,
             ⟨"assistant", "Enter something else"⟩],
       none, some "user_inputs", none, none, none, none⟩ := by
    unfold nRun2
    rw [s1]
    simp [resume, kickoff, preRoute, applyInputs, initialize_step, handle_user_input,
      routing, handle_request_user_input, add_output_message, ha, hla]
  have s3 : (nRun3 sid a b r1 r2 r3).2 =
      ⟨sid, some 0, some [a, b], some 2, some 1,
       some ["Enter something", "Enter something else", msgN 1 (r3 % 5)],
       some [⟨"assistant", "Enter something"⟩, ⟨"user", a⟩,
             ⟨"assistant", "Enter something else"⟩, ⟨"user", b⟩,
             ⟨"assistant", msgN 1 (r3 % 5)⟩],
       none, some "user_choice", none, none, some (batchN 1), some (pickN 1 (r3 % 5))⟩ := by
    unfold nRun3
    rw [s2]
    simp [resume, kickoff, preRoute, applyInputs, initialize_step, handle_user_input,
      routing, handle_start_processing, handle_processing_complete, show_final_result,
      add_output_message, hb, hlb, batchN, pickN, msgN]
  have s4 : (yRun4 sid a b r1 r2 r3 r4).2 =
      ⟨sid, some 0, some [a, b], some 2, some 1,
       some ["Enter something", "Enter something else", msgN 1 (r3 % 5),
             "All done. Good bye!"],
       some [⟨"assistant", "Enter something"⟩, ⟨"user", a⟩,
             ⟨"assistant", "Enter something else"⟩, ⟨"user", b⟩,
             ⟨"assistant", msgN 1 (r3 % 5)⟩, ⟨"user", "Y"⟩,
             ⟨"assistant", "All done. Good bye!"⟩],
       none, none, some true, some true, some (batchN 1), some (pickN 1 (r3 % 5))⟩ := by
    unfold yRun4
    rw [s3]
    rfl
  refine ⟨?_, ?_, by rw [s4], by rw [s4], by rw [s4], ?_⟩
  · unfold yRun4
    rw [s3]
    rfl
  · unfold yRun4
    rw [s3]
    rfl
  · intro u r5
    have hae := already_ended r5 u (yRun4 sid a b r1 r2 r3 r4).2
      (by rw [s4]) (by rw [s4]; rfl) (by rw [s4]; rfl)
    exact ⟨hae.1, hae.2.1, hae.2.2.1, hae.2.2.2.1⟩

/-- C6 witness: the accept scenario at concrete inputs "aa", "bb", followed
by one further call with input "zz". -/
theorem accept_then_idempotent_witness :
    (yRun4 "s" "aa" "bb" 0 0 0 0).1.2.2.1 = some "All done. Good bye!" ∧
    (yRun4 "s" "aa" "bb" 0 0 0 0).2.completed = some true ∧
    (resume 0 (some "zz") (yRun4 "s" "aa" "bb" 0 0 0 0).2).1.2.2.1 =
      some "This chat already ended. Good bye!" ∧
    (resume 0 (some "zz") (yRun4 "s" "aa" "bb" 0 0 0 0).2).2.retry_count =
      (yRun4 "s" "aa" "bb" 0 0 0 0).2.retry_count :=
  ⟨(accept_then_idempotent "s" "aa" "bb" (by decide) (by decide) 0 0 0 0).1,
   (accept_then_idempotent "s" "aa" "bb" (by decide) (by decide) 0 0 0 0).2.2.1,
   ((accept_then_idempotent "s" "aa" "bb" (by decide) (by decide) 0 0 0 0).2.2.2.2.2
     (some "zz") 0).1,
   ((accept_then_idempotent "s" "aa" "bb" (by decide) (by decide) 0 0 0 0).2.2.2.2.2
     (some "zz") 0).2.2.1⟩
